import Mathlib

/-!
Verification of the retrieval-and-normalization layer of the paper-search
repository. The Lean definitions below are a shallow embedding of the Python
source under `src/paper_search_mcp/`:

* `paper.py`            → `Paper`, `post_init`, `mkPaper`, `to_dict`
* `academic_platforms/arxiv.py`          → `arxivParse`, `arxiv_search`
* `academic_platforms/pubmed.py`         → `pubmedParse`, `pubmed_search`
* `academic_platforms/biorxiv.py`        → `bxParse`, `bio_search`, `bio_download_pdf`
* `academic_platforms/hub.py`            → `hub_download_pdf`, `hub_read_paper`
* `academic_platforms/semantic.py`       → `request_api`, `extract_url_from_disclaimer`
* `academic_platforms/google_scholar.py` → `extract_year`

Remote I/O is modelled by explicit response oracles (`Nat → …` functions giving
the outcome of the n-th HTTP request) and the file system by a set of existing
paths (`String → Bool`). Python `datetime` values are modelled by a record of
numeric fields; `datetime.strptime` is implemented character-by-character with
the same accept/reject behaviour as CPython for the three format strings the
source uses.
-/

/-! ## Basic string utilities (Python semantics) -/

/-- Python whitespace for `str.split()` / regex `\s`, restricted to the ASCII
whitespace characters (the source strings in play are ASCII). -/
def pyIsSpace (c : Char) : Bool :=
  c == ' ' || c == '\t' || c == '\n' || c == '\r' || c == Char.ofNat 11 || c == Char.ofNat 12

/-- ASCII decimal digit, as accepted by `str.isdigit()` on ASCII text. -/
def isAsciiDigit (c : Char) : Bool := '0' ≤ c && c ≤ '9'

def digitToNat (c : Char) : Nat := c.toNat - 48

/-- Decimal value of a digit string, as computed by Python `int(word)`. -/
def digitsToNat (cs : List Char) : Nat :=
  cs.foldl (fun acc c => acc * 10 + digitToNat c) 0

/-- Python `str.isdigit()` on ASCII text: nonempty and all digits. -/
def pyIsDigit (w : String) : Bool :=
  !w.data.isEmpty && w.data.all isAsciiDigit

/-- Helper for `pySplit`: accumulates the current token (reversed) while
scanning. -/
def pySplitGo : List Char → List Char → List String
  | [], acc => if acc.isEmpty then [] else [String.mk acc.reverse]
  | c :: rest, acc =>
    if pyIsSpace c then
      if acc.isEmpty then pySplitGo rest []
      else String.mk acc.reverse :: pySplitGo rest []
    else pySplitGo rest (c :: acc)

/-- Python `str.split()` with no argument: split on runs of whitespace,
dropping empty tokens. -/
def pySplit (s : String) : List String := pySplitGo s.data []

/-- Does the first list start with the second? -/
def listStartsWith : List Char → List Char → Bool
  | _, [] => true
  | [], _ :: _ => false
  | a :: as, b :: bs => a == b && listStartsWith as bs

/-- Does the first list contain the second as a contiguous sublist?
Models Python `pat in s`. -/
def listHasSub : List Char → List Char → Bool
  | [], pat => pat.isEmpty
  | c :: rest, pat => listStartsWith (c :: rest) pat || listHasSub rest pat

/-- Python `pat in s` on strings. -/
def strHas (s pat : String) : Bool := listHasSub s.data pat.data

/-- Helper for `strReplace`: replaces every non-overlapping occurrence of
`pat` (assumed nonempty, as at all call sites) left to right. The fuel is the
length of the remaining text, which strictly bounds the recursion. -/
def replaceSubGo (pat rep : List Char) : Nat → List Char → List Char
  | 0, hay => hay
  | _ + 1, [] => []
  | fuel + 1, c :: rest =>
    if !pat.isEmpty && listStartsWith (c :: rest) pat then
      rep ++ replaceSubGo pat rep fuel ((c :: rest).drop pat.length)
    else c :: replaceSubGo pat rep fuel rest

/-- Python `s.replace(pat, rep)` for nonempty `pat`. -/
def strReplace (s pat rep : String) : String :=
  String.mk (replaceSubGo pat.data rep.data s.data.length s.data)

/-! ## datetime model and `strptime` for the formats used by the source -/

/-- Model of a Python `datetime` value (microsecond always zero in this
code base). -/
structure DateTime where
  year : Nat
  month : Nat
  day : Nat
  hour : Nat
  minute : Nat
  second : Nat
deriving DecidableEq, Repr

def isLeapYear (y : Nat) : Bool :=
  y % 4 == 0 && (y % 100 != 0 || y % 400 == 0)

def daysInMonth (y m : Nat) : Nat :=
  if m == 2 then (if isLeapYear y then 29 else 28)
  else if m == 4 || m == 6 || m == 9 || m == 11 then 30
  else 31

/-- Validation performed by the `datetime` constructor (year 1–9999, month
1–12, day within the month). -/
def mkValidDate (y m d : Nat) : Option DateTime :=
  if 1 ≤ y && y ≤ 9999 && 1 ≤ m && m ≤ 12 && 1 ≤ d && d ≤ daysInMonth y m then
    some ⟨y, m, d, 0, 0, 0⟩
  else none

def mkValidDateTime (y m d hh mm ss : Nat) : Option DateTime :=
  if 1 ≤ y && y ≤ 9999 && 1 ≤ m && m ≤ 12 && 1 ≤ d && d ≤ daysInMonth y m
      && hh ≤ 23 && mm ≤ 59 && ss ≤ 59 then
    some ⟨y, m, d, hh, mm, ss⟩
  else none

/-- Consume one or two leading ASCII digits (maximal munch, as the `%m`, `%d`,
`%H`, `%M`, `%S` directives of CPython `_strptime` do, which is equivalent to
the regex alternation used there for the inputs where the following literal is
a non-digit). -/
def take2Digits : List Char → Option (Nat × List Char)
  | [] => none
  | [a] => if isAsciiDigit a then some (digitToNat a, []) else none
  | a :: b :: rest =>
    if isAsciiDigit a then
      if isAsciiDigit b then some (digitToNat a * 10 + digitToNat b, rest)
      else some (digitToNat a, b :: rest)
    else none

/-- `datetime.strptime(s, "%Y-%m-%d")`: four-digit year, 1–2-digit month and
day, nothing left over, calendar-valid. -/
def strptimeYmd (s : String) : Option DateTime :=
  match s.data with
  | y1 :: y2 :: y3 :: y4 :: c5 :: rest =>
    if isAsciiDigit y1 && isAsciiDigit y2 && isAsciiDigit y3 && isAsciiDigit y4
        && (c5 == '-') then
      match take2Digits rest with
      | some (m, c6 :: rest2) =>
        if c6 == '-' then
          match take2Digits rest2 with
          | some (d, []) => mkValidDate (digitsToNat [y1, y2, y3, y4]) m d
          | _ => none
        else none
      | _ => none
    else none
  | _ => none

/-- `datetime.strptime(s, "%Y-%m-%dT%H:%M:%SZ")`. -/
def strptimeIsoZ (s : String) : Option DateTime :=
  match s.data with
  | y1 :: y2 :: y3 :: y4 :: c5 :: rest =>
    if isAsciiDigit y1 && isAsciiDigit y2 && isAsciiDigit y3 && isAsciiDigit y4
        && (c5 == '-') then
      match take2Digits rest with
      | some (m, c6 :: rest2) =>
        if c6 == '-' then
          match take2Digits rest2 with
          | some (d, c7 :: rest3) =>
            if c7 == 'T' then
              match take2Digits rest3 with
              | some (hh, c8 :: rest4) =>
                if c8 == ':' then
                  match take2Digits rest4 with
                  | some (mm, c9 :: rest5) =>
                    if c9 == ':' then
                      match take2Digits rest5 with
                      | some (ss, [cz]) =>
                        if cz == 'Z' then
                          mkValidDateTime (digitsToNat [y1, y2, y3, y4]) m d hh mm ss
                        else none
                      | _ => none
                    else none
                  | _ => none
                else none
              | _ => none
            else none
          | _ => none
        else none
      | _ => none
    else none
  | _ => none

/-- `datetime.strptime(s, "%Y")`: exactly four digits, year ≥ 1; month and day
default to 1. -/
def strptimeY (s : String) : Option DateTime :=
  match s.data with
  | [y1, y2, y3, y4] =>
    if isAsciiDigit y1 && isAsciiDigit y2 && isAsciiDigit y3 && isAsciiDigit y4 then
      let y := digitsToNat [y1, y2, y3, y4]
      if 1 ≤ y then some ⟨y, 1, 1, 0, 0, 0⟩ else none
    else none
  | _ => none

def pad2 (n : Nat) : String := if n < 10 then "0" ++ toString n else toString n

def pad4 (n : Nat) : String :=
  if n < 10 then "000" ++ toString n
  else if n < 100 then "00" ++ toString n
  else if n < 1000 then "0" ++ toString n
  else toString n

/-- Python `datetime.isoformat()` for microsecond-zero values:
`YYYY-MM-DDTHH:MM:SS`. -/
def isoformat (d : DateTime) : String :=
  pad4 d.year ++ "-" ++ pad2 d.month ++ "-" ++ pad2 d.day ++ "T"
    ++ pad2 d.hour ++ ":" ++ pad2 d.minute ++ ":" ++ pad2 d.second

/-! ## The canonical record (`paper.py`) -/

/-- `Paper` dataclass. Fields declared `Optional` in the source (or declared
as lists but constructible with `None`) are modelled with `Option`; `extra` is
modelled as an association list of string pairs. -/
structure Paper where
  paper_id : String
  title : String
  abstract : String
  doi : String
  pdf_url : String
  url : String
  source : String
  authors : Option (List String)
  published_date : Option DateTime
  updated_date : Option DateTime
  categories : Option (List String)
  keywords : Option (List String)
  citations : Int
  references : Option (List String)
  extra : Option (List (String × String))
deriving DecidableEq, Repr

/-- `Paper.__post_init__`: replace a `None` in each defaulted collection field
by the empty collection. -/
def post_init (p : Paper) : Paper :=
  { p with
    authors := if p.authors = none then some [] else p.authors
    categories := if p.categories = none then some [] else p.categories
    keywords := if p.keywords = none then some [] else p.keywords
    references := if p.references = none then some [] else p.references
    extra := if p.extra = none then some [] else p.extra }

/-- Dataclass construction: field assignment followed by `__post_init__`.
Argument order matches the dataclass declaration order. -/
def mkPaper (paper_id title : String) (authors : Option (List String))
    (abstract doi : String) (published_date : Option DateTime)
    (pdf_url url source : String) (updated_date : Option DateTime)
    (categories keywords : Option (List String)) (citations : Int)
    (references : Option (List String))
    (extra : Option (List (String × String))) : Paper :=
  post_init
    { paper_id := paper_id, title := title, abstract := abstract, doi := doi
      pdf_url := pdf_url, url := url, source := source, authors := authors
      published_date := published_date, updated_date := updated_date
      categories := categories, keywords := keywords, citations := citations
      references := references, extra := extra }

/-- Python truthiness-guarded join: `'; '.join(x) if x else ''` where `x` is a
possibly-`None` list of strings. -/
def joinSemi (l : Option (List String)) : String :=
  match l with
  | none => ""
  | some [] => ""
  | some xs => String.intercalate "; " xs

/-- A single quote character, used by the `str(dict)` rendering. -/
def pyQuote : String := String.singleton (Char.ofNat 39)

/-- Python `str(d)` for a dict of string keys and string values. -/
def pyStrDict (m : List (String × String)) : String :=
  "\x7b" ++ String.intercalate ", "
      (m.map (fun kv => pyQuote ++ kv.1 ++ pyQuote ++ ": " ++ pyQuote ++ kv.2 ++ pyQuote))
    ++ "\x7d"

/-- The wire mapping produced by `Paper.to_dict`. -/
structure PaperDict where
  paper_id : String
  title : String
  authors : String
  abstract : String
  doi : String
  published_date : String
  pdf_url : String
  url : String
  source : String
  updated_date : String
  categories : String
  keywords : String
  citations : Int
  references : String
  extra : String
deriving DecidableEq, Repr

/-- `Paper.to_dict`. -/
def to_dict (p : Paper) : PaperDict :=
  { paper_id := p.paper_id
    title := p.title
    authors := joinSemi p.authors
    abstract := p.abstract
    doi := p.doi
    published_date := match p.published_date with | some d => isoformat d | none => ""
    pdf_url := p.pdf_url
    url := p.url
    source := p.source
    updated_date := match p.updated_date with | some d => isoformat d | none => ""
    categories := joinSemi p.categories
    keywords := joinSemi p.keywords
    citations := p.citations
    references := joinSemi p.references
    extra := match p.extra with
             | none => ""
             | some [] => ""
             | some m => pyStrDict m }

/-! ## arXiv adapter (`arxiv.py`) -/

/-- One feedparser entry, with the fields `ArxivSearcher.search` reads.
`authors` models the already-extracted `author.name` list and `tags` the
`tag.term` list; `links` pairs each link type with its href; `doi` models
`entry.get('doi', '')` with `none` for an absent key. -/
structure ArxivEntry where
  id : String
  title : String
  summary : String
  published : String
  updated : String
  authors : List String
  tags : List String
  links : List (String × String)
  doi : Option String
deriving DecidableEq, Repr

/-- Body of the per-entry `try` block of `ArxivSearcher.search`; `none` models
the caught-and-logged parse exception (a `strptime` failure). -/
def arxivParse (e : ArxivEntry) : Option Paper := do
  let published ← strptimeIsoZ e.published
  let updated ← strptimeIsoZ e.updated
  let pdf_url := ((e.links.find? (fun l => l.1 == "application/pdf")).map (fun l => l.2)).getD ""
  pure (mkPaper ((e.id.splitOn "/").getLastD "") e.title (some e.authors) e.summary
    (e.doi.getD "") (some published) pdf_url e.id "arxiv" (some updated)
    (some e.tags) (some []) 0 none none)

/-- `ArxivSearcher.search`: every successfully parsed entry of the feed is
appended; there is no local truncation to `max_results` (the limit is only
forwarded to the remote API as a query parameter). -/
def arxiv_search (entries : List ArxivEntry) (_max_results : Nat) : List Paper :=
  entries.filterMap arxivParse

/-! ## PubMed adapter (`pubmed.py`) -/

/-- One `PubmedArticle` element, with the fields `PubMedSearcher.search`
reads. `none` models an absent element (whose `.text` access raises inside the
per-article `try`); for `abstract` and `doi` the source itself guards the
access with `is not None` and substitutes the empty string. Each author is the
pair of its `LastName` and `Initials` texts. -/
structure PubmedArticle where
  pmid : Option String
  title : Option String
  authors : List (Option String × Option String)
  abstract : Option String
  year : Option String
  doi : Option String
deriving DecidableEq, Repr

/-- Body of the per-article `try` block of `PubMedSearcher.search`. -/
def pubmedParse (a : PubmedArticle) : Option Paper := do
  let pmid ← a.pmid
  let title ← a.title
  let authors ← a.authors.mapM (fun au => do
    let ln ← au.1
    let ini ← au.2
    pure (ln ++ " " ++ ini))
  let pubYear ← a.year
  let published ← strptimeY pubYear
  pure (mkPaper pmid title (some authors) (a.abstract.getD "") (a.doi.getD "")
    (some published) "" ("https://pubmed.ncbi.nlm.nih.gov/" ++ pmid ++ "/") "pubmed"
    (some published) (some []) (some []) 0 none none)

/-- `PubMedSearcher.search`: one record per successfully parsed article; no
local truncation to `max_results` (`retmax` is only sent to the remote API). -/
def pubmed_search (articles : List PubmedArticle) (_max_results : Nat) : List Paper :=
  articles.filterMap pubmedParse

/-! ## bioRxiv adapter (`biorxiv.py`) -/

/-- One item of a bioRxiv `collection`, with the keys the source reads.
`version` models `item.get('version', '1')`. -/
structure BxItem where
  doi : String
  title : String
  authors : String
  abstract : String
  date : String
  category : String
  version : Option String
deriving DecidableEq, Repr

/-- Body of the per-item `try` block of `BioRxivSearcher.search`; `none`
models the caught parse exception (`strptime` failure on `item['date']`). -/
def bxParse (it : BxItem) : Option Paper := do
  let date ← strptimeYmd it.date
  let v := it.version.getD "1"
  pure (mkPaper it.doi it.title (some (it.authors.splitOn "; ")) it.abstract
    it.doi (some date)
    ("https://www.biorxiv.org/content/" ++ it.doi ++ "v" ++ v ++ ".full.pdf")
    ("https://www.biorxiv.org/content/" ++ it.doi ++ "v" ++ v)
    "biorxiv" (some date) (some [it.category]) (some []) 0 none none)

/-- The inner retry loop of `BioRxivSearcher.search` for one page: up to
`max_retries = 3` attempts; `responses n` is the outcome of the n-th HTTP
request overall (`none` = `RequestException`). Returns the first successful
collection together with the total number of requests issued. -/
def bioFetchPage (responses : Nat → Option (List BxItem)) :
    Nat → Nat → Option (List BxItem) × Nat
  | 0, reqs => (none, reqs)
  | remaining + 1, reqs =>
    match responses reqs with
    | some coll => (some coll, reqs + 1)
    | none => bioFetchPage responses remaining (reqs + 1)

/-- `BioRxivSearcher.search`, returning the paper list and the number of HTTP
requests issued. The pagination `while` executes at most one page cycle:
every exit from the inner retry loop is a `break` (success, short page, or
retries exhausted), so the retry loop's `else: continue` never runs and the
trailing `break` terminates the outer loop after the first page. The cursor
is therefore never used at a value other than 0. -/
def bio_search (responses : Nat → Option (List BxItem)) (max_results : Nat) :
    List Paper × Nat :=
  if 0 < max_results then
    match bioFetchPage responses 3 0 with
    | (some coll, reqs) => ((coll.filterMap bxParse).take max_results, reqs)
    | (none, reqs) => ([], reqs)
  else ([], 0)

/-- File system model: the set of paths that exist. -/
def FS : Type := String → Bool

def setFile (fs : FS) (p : String) (b : Bool) : FS :=
  fun q => if q = p then b else fs q

/-- `save_path/<paper_id with slashes replaced by underscores>.pdf`, the path
used both by the f-string in `read_paper` and (via `os.path.join`, which
resolves to the same file) by `download_pdf`. -/
def pdfPath (save_path paper_id : String) : String :=
  save_path ++ "/" ++ strReplace paper_id "/" "_" ++ ".pdf"

/-- Result of `BioRxivSearcher.download_pdf`. -/
inductive BioDl
  | valueError
  | ok (path : String)
  | failed
deriving DecidableEq, Repr

/-- Retry loop of `BioRxivSearcher.download_pdf`: `responses n` is the n-th
HTTP request outcome (`none` = `RequestException`); on success the PDF is
written. After `max_retries = 3` failures it raises (`failed`). Returns the
result, the file system, and the number of requests issued. -/
def bioDlLoop (responses : Nat → Option String) (path : String) (fs : FS) :
    Nat → Nat → BioDl × FS × Nat
  | 0, reqs => (BioDl.failed, fs, reqs)
  | remaining + 1, reqs =>
    match responses reqs with
    | some _ => (BioDl.ok path, setFile fs path true, reqs + 1)
    | none => bioDlLoop responses path fs remaining (reqs + 1)

/-- `BioRxivSearcher.download_pdf`: an empty `paper_id` raises `ValueError`
before any request or write; otherwise the bounded retry loop runs. -/
def bio_download_pdf (responses : Nat → Option String) (paper_id save_path : String)
    (fs : FS) : BioDl × FS × Nat :=
  if paper_id = "" then (BioDl.valueError, fs, 0)
  else bioDlLoop responses (pdfPath save_path paper_id) fs 3 0

/-! ## Sci-Hub mirror-rotation adapter (`hub.py`) -/

/-- The mutable per-instance state of `SciHubSearcher`. -/
structure HubState where
  available_urls : List String
  url_index : Nat
deriving DecidableEq, Repr

/-- The rotated candidate list `available_urls[url_index:] +
available_urls[:url_index]`. -/
def urlsToTry (st : HubState) : List String :=
  st.available_urls.drop st.url_index ++ st.available_urls.take st.url_index

/-- The `for i, base_url in enumerate(urls_to_try)` loop: `f base_url` models
one whole mirror attempt (item-page GET, embed/iframe PDF-URL extraction and
PDF GET, lines 71–107); `false` means the attempt failed (exception caught or
no PDF URL found) and the loop continues. Returns the enumerate index of the
first success. -/
def tryLoop (f : String → Bool) : List String → Nat → Option Nat
  | [], _ => none
  | u :: rest, i => if f u then some i else tryLoop f rest (i + 1)

/-- `SciHubSearcher.download_pdf`: `none` models the raised `RuntimeError`
(no available URLs, or every mirror failed). On success the PDF is written at
`pdfPath` and `url_index` is set to `(url_index + i) % len(available_urls)`. -/
def hub_download_pdf (st : HubState) (f : String → Bool) (fs : FS)
    (paper_id save_path : String) : Option (String × HubState × FS) :=
  if st.available_urls.isEmpty then none
  else
    match tryLoop f (urlsToTry st) 0 with
    | some i =>
      let path := pdfPath save_path paper_id
      some (path,
            { st with url_index := (st.url_index + i) % st.available_urls.length },
            setFile fs path true)
    | none => none

/-- Result of `SciHubSearcher.read_paper`: extracted text (possibly `""` from
the caught extraction error) or the propagated download `RuntimeError`. -/
inductive ReadOutcome
  | text (s : String)
  | downloadError
deriving DecidableEq, Repr

/-- `SciHubSearcher.read_paper`: `extractRes` models the `PdfReader`
extraction (`none` = exception, caught and turned into `""`). When the PDF was
not cached the call downloads it, and the `finally` block removes the file it
downloaded; a cached PDF is used in place and never removed. -/
def hub_read_paper (st : HubState) (f : String → Bool) (fs : FS)
    (extractRes : Option String) (paper_id save_path : String) :
    ReadOutcome × FS × HubState :=
  let path := pdfPath save_path paper_id
  if fs path then
    match extractRes with
    | some t => (ReadOutcome.text t, fs, st)
    | none => (ReadOutcome.text "", fs, st)
  else
    match hub_download_pdf st f fs paper_id save_path with
    | none => (ReadOutcome.downloadError, fs, st)
    | some (_, st2, fs2) =>
      let fs3 := setFile fs2 path false
      match extractRes with
      | some t => (ReadOutcome.text t, fs3, st2)
      | none => (ReadOutcome.text "", fs3, st2)

/-! ## Semantic Scholar adapter (`semantic.py`) -/

/-- Outcome of one `session.get` in `request_api`: a response with a status
code and body, or a raised non-HTTP exception. -/
inductive ReqRes
  | resp (status : Nat) (body : String)
  | exn (msg : String)
deriving DecidableEq, Repr

/-- The value `request_api` returns: the response itself on success, or one of
the typed error dicts. -/
inductive ApiResult
  | success (status : Nat) (body : String)
  | rateLimited
  | httpError (status : Nat)
  | generalError (msg : String)
  | maxRetriesExceeded
deriving DecidableEq, Repr

/-- The `for attempt in range(max_retries)` loop of
`SemanticSearcher.request_api`, with `max_retries = 3` and `retry_delay = 2`.
`responses attempt` is the outcome of the attempt-th request. The second
component records the `time.sleep` durations (seconds) in order. The
`except HTTPError` handler re-checks for status 429, but `raise_for_status`
is only reached when the status is not 429, so that sub-branch is dead; it is
embedded with the same shape as the source. -/
def request_api_go (responses : Nat → ReqRes) :
    Nat → Nat → List Nat → ApiResult × List Nat
  | 0, _, sleeps => (ApiResult.maxRetriesExceeded, sleeps)
  | remaining + 1, attempt, sleeps =>
    match responses attempt with
    | ReqRes.exn m => (ApiResult.generalError m, sleeps)
    | ReqRes.resp status body =>
      if status = 429 then
        if attempt < 3 - 1 then
          request_api_go responses remaining (attempt + 1) (sleeps ++ [2 * 2 ^ attempt])
        else (ApiResult.rateLimited, sleeps)
      else if 400 ≤ status && status < 600 then
        if status = 429 then
          if attempt < 3 - 1 then
            request_api_go responses remaining (attempt + 1) (sleeps ++ [2 * 2 ^ attempt])
          else (ApiResult.rateLimited, sleeps)
        else (ApiResult.httpError status, sleeps)
      else (ApiResult.success status body, sleeps)

/-- `SemanticSearcher.request_api`. -/
def request_api (responses : Nat → ReqRes) : ApiResult × List Nat :=
  request_api_go responses 3 0 []

/-- Characters allowed inside a URL by the disclaimer regexes: everything but
whitespace, a comma and a closing parenthesis (`[^\s,)]`). -/
def urlChar (c : Char) : Bool := !(pyIsSpace c || c == ',' || c == ')')

def httpsChars : List Char := ['h', 't', 't', 'p', 's', ':', '/', '/']

def httpChars : List Char := ['h', 't', 't', 'p', ':', '/', '/']

/-- Match `https?://` at the head of the input (greedy `s?` with
backtracking ≡ try `https://` first). Returns the matched scheme and the
remainder. -/
def matchScheme (l : List Char) : Option (List Char × List Char) :=
  if listStartsWith l httpsChars then some (httpsChars, l.drop 8)
  else if listStartsWith l httpChars then some (httpChars, l.drop 7)
  else none

/-- `re.findall(r'https?://[^\s,)]+', s)`: scan left to right, at each
position try the pattern (greedy one-or-more URL characters), emit the match
and resume after it, otherwise advance one character. Each step consumes at
least one character, so fuel = input length suffices. -/
def findall1Go : Nat → List Char → List String
  | 0, _ => []
  | _ + 1, [] => []
  | fuel + 1, c :: rest =>
    match matchScheme (c :: rest) with
    | some (scheme, after) =>
      let run := after.takeWhile urlChar
      if run.isEmpty then findall1Go fuel rest
      else String.mk (scheme ++ run) :: findall1Go fuel (after.dropWhile urlChar)
    | none => findall1Go fuel rest

def findall1 (s : String) : List String := findall1Go s.data.length s.data

def arxivAbsChars : List Char :=
  ['a', 'r', 'x', 'i', 'v', '.', 'o', 'r', 'g', '/', 'a', 'b', 's', '/']

/-- `re.findall(r'https?://arxiv\.org/abs/[^\s,)]+', s)`. -/
def findall2Go : Nat → List Char → List String
  | 0, _ => []
  | _ + 1, [] => []
  | fuel + 1, c :: rest =>
    match matchScheme (c :: rest) with
    | some (scheme, after) =>
      if listStartsWith after arxivAbsChars then
        let after2 := after.drop arxivAbsChars.length
        let run := after2.takeWhile urlChar
        if run.isEmpty then findall2Go fuel rest
        else String.mk (scheme ++ arxivAbsChars ++ run)
            :: findall2Go fuel (after2.dropWhile urlChar)
      else findall2Go fuel rest
    | none => findall2Go fuel rest

def findall2 (s : String) : List String := findall2Go s.data.length s.data

/-- On a reversed run, the number of trailing characters to drop so that the
remaining prefix ends in `.pdf` — i.e. the distance from the end of the run to
the last occurrence of `.pdf`, which is where the greedy `[^\s,)]*`
backtracks to. -/
def dropToPdf : List Char → Option Nat
  | 'f' :: 'd' :: 'p' :: '.' :: _ => some 0
  | _ :: rest => (dropToPdf rest).map (· + 1)
  | [] => none

/-- `re.findall(r'https?://[^\s,)]*\.pdf', s)`: the greedy star consumes the
maximal URL-character run and backtracks to the last `.pdf` inside it;
scanning resumes after the match (the leftover run characters are rescanned,
as `re.findall` does). -/
def findall3Go : Nat → List Char → List String
  | 0, _ => []
  | _ + 1, [] => []
  | fuel + 1, c :: rest =>
    match matchScheme (c :: rest) with
    | some (scheme, after) =>
      let run := after.takeWhile urlChar
      match dropToPdf run.reverse with
      | some k =>
        String.mk (scheme ++ run.take (run.length - k))
          :: findall3Go fuel (run.drop (run.length - k) ++ after.dropWhile urlChar)
      | none => findall3Go fuel rest
    | none => findall3Go fuel rest

def findall3 (s : String) : List String := findall3Go s.data.length s.data

/-- `all_urls`: the concatenation of the three `re.findall` results, in the
order the source extends the list. -/
def allDisclaimerUrls (s : String) : List String :=
  findall1 s ++ findall2 s ++ findall3 s

/-- The arXiv rewrite applied in the second and third priority tiers:
`url.replace('/abs/', '/pdf/')` when the URL contains `arxiv.org/abs/`. -/
def rewriteArxiv (u : String) : String :=
  if strHas u "arxiv.org/abs/" then strReplace u "/abs/" "/pdf/" else u

/-- `SemanticSearcher._extract_url_from_disclaimer`. -/
def extract_url_from_disclaimer (d : String) : String :=
  let all_urls := allDisclaimerUrls d
  if all_urls.isEmpty then ""
  else
    match all_urls.filter (fun u => strHas u "doi.org") with
    | u :: _ => u
    | [] =>
      match all_urls.filter (fun u => !strHas u "unpaywall.org") with
      | u :: _ => rewriteArxiv u
      | [] =>
        match all_urls with
        | u :: _ => rewriteArxiv u
        | [] => ""

/-! ## Google Scholar adapter (`google_scholar.py`) -/

/-- `GoogleScholarSearcher._extract_year`, with `datetime.now().year` passed
in as `nowYear`: scan the whitespace-delimited tokens in order and return the
value of the first all-digit token between 1900 and the current year. -/
def extract_year_go (nowYear : Nat) : List String → Option Nat
  | [] => none
  | w :: rest =>
    if pyIsDigit w && decide (1900 ≤ digitsToNat w.data)
        && decide (digitsToNat w.data ≤ nowYear) then
      some (digitsToNat w.data)
    else extract_year_go nowYear rest

def extract_year (text : String) (nowYear : Nat) : Option Nat :=
  extract_year_go nowYear (pySplit text)

/-! ## Helper lemmas -/

theorem getD_append_lt {α : Type} (l₁ l₂ : List α) (d : α) (i : Nat)
    (h : i < l₁.length) : (l₁ ++ l₂).getD i d = l₁.getD i d := by
  induction l₁ generalizing i with
  | nil => simp at h
  | cons a t ih =>
    cases i with
    | zero => rfl
    | succ n =>
      have hn : n < t.length := by simp at h; omega
      simpa using ih n hn

theorem getD_append_ge {α : Type} (l₁ l₂ : List α) (d : α) (i : Nat)
    (h : l₁.length ≤ i) : (l₁ ++ l₂).getD i d = l₂.getD (i - l₁.length) d := by
  induction l₁ generalizing i with
  | nil => simp
  | cons a t ih =>
    cases i with
    | zero => simp at h
    | succ n =>
      have hn : t.length ≤ n := by simp at h; omega
      simpa using ih n hn

theorem getD_drop {α : Type} (l : List α) (d : α) (i j : Nat) :
    (l.drop i).getD j d = l.getD (i + j) d := by
  induction l generalizing i with
  | nil => simp
  | cons a t ih =>
    cases i with
    | zero => simp
    | succ n =>
      have : n + 1 + j = (n + j) + 1 := by omega
      rw [this]
      simp [ih n]

theorem getD_take {α : Type} (l : List α) (d : α) (i j : Nat) (h : j < i) :
    (l.take i).getD j d = l.getD j d := by
  induction l generalizing i j with
  | nil => simp
  | cons a t ih =>
    cases i with
    | zero => omega
    | succ n =>
      cases j with
      | zero => rfl
      | succ m =>
        have hm : m < n := by omega
        simpa using ih n m hm

/-- Indexing into the rotated list `drop idx ++ take idx` is indexing into the
original list at the wrapped-around absolute offset. -/
theorem rot_getD {α : Type} (l : List α) (d : α) (idx j : Nat)
    (hidx : idx < l.length) (hj : j < l.length) :
    (l.drop idx ++ l.take idx).getD j d = l.getD ((idx + j) % l.length) d := by
  have hlen : (l.drop idx).length = l.length - idx := List.length_drop idx l
  by_cases hcase : j < l.length - idx
  · rw [getD_append_lt _ _ _ _ (by omega), getD_drop]
    have hlt : idx + j < l.length := by omega
    rw [Nat.mod_eq_of_lt hlt]
  · have h2 : l.length ≤ idx + j := by omega
    have h3 : idx + j - l.length < l.length := by omega
    rw [Nat.mod_eq_sub_mod h2, Nat.mod_eq_of_lt h3]
    rw [getD_append_ge _ _ _ _ (by omega), hlen]
    rw [getD_take _ _ _ _ (show j - (l.length - idx) < idx by omega)]
    congr 1
    omega

/-- If the first `K` candidates fail and the `K`-th (0-based) succeeds, the
enumerate loop returns index `i + K`. -/
theorem tryLoop_first (f : String → Bool) (l : List String) (K i : Nat)
    (hK : K < l.length)
    (hfail : ∀ j, j < K → f (l.getD j "") = false)
    (hsucc : f (l.getD K "") = true) :
    tryLoop f l i = some (i + K) := by
  induction l generalizing K i with
  | nil => simp at hK
  | cons u t ih =>
    cases K with
    | zero =>
      have hu : f u = true := hsucc
      simp [tryLoop, hu]
    | succ n =>
      have hu : f u = false := hfail 0 (Nat.succ_pos n)
      have hrec : tryLoop f t (i + 1) = some (i + 1 + n) :=
        ih n (i + 1) (by simp at hK; omega) (fun j hj => hfail (j + 1) (by omega)) hsucc
      have harith : i + 1 + n = i + (n + 1) := by omega
      simp [tryLoop, hu, hrec, harith]

/-- The first element of a filtered list is the first element satisfying the
predicate. -/
theorem find_eq_filter_head {α : Type} (p : α → Bool) (l : List α) :
    l.find? p = (l.filter p).head? := by
  induction l with
  | nil => rfl
  | cons a t ih =>
    cases h : p a
    · rw [List.find?_cons_of_neg _ (by simp [h]), List.filter_cons_of_neg (by simp [h]), ih]
    · rw [List.find?_cons_of_pos _ h, List.filter_cons_of_pos h, List.head?_cons]

/-- `'; '.join(x) if x else ''` coincides with the plain delimiter join of the
underlying (possibly defaulted) list, because the join of an empty list is the
empty string. -/
theorem joinSemi_eq (l : Option (List String)) :
    joinSemi l = String.intercalate "; " (l.getD []) := by
  cases l with
  | none => rfl
  | some xs => cases xs <;> rfl

/-! ## Claim theorems -/

/-- A concrete, successfully parsing feed entry. -/
def entryA : ArxivEntry :=
  { id := "http://arxiv.org/abs/1234.5678v1", title := "T", summary := "S"
    published := "2024-01-02T03:04:05Z", updated := "2024-01-02T03:04:05Z"
    authors := ["A"], tags := ["cs.AI"]
    links := [("application/pdf", "http://arxiv.org/pdf/1234.5678v1")], doi := none }

/-- C1 counterexample: the arXiv adapter applies no local truncation, so with
`maxResults = 0` and a remote response containing one well-formed entry the
returned sequence has length 1 > 0, refuting the claim in the quantified form
"for every adapter … regardless of how many items the remote response
contains". -/
theorem arxiv_search_not_bounded_by_max_results :
    ¬ (arxiv_search [entryA] 0).length ≤ 0 := by decide

/-- C1 (amended): the windowed-pagination (bioRxiv) adapter truncates its
result to `maxResults`; the preprint-index (arXiv) and bibliographic-API
(PubMed) adapters return exactly one record per successfully parsed response
entry — their length is bounded by the size of the remote response, not by
`maxResults`, which they only forward to the server. -/
theorem search_length_bounds (responses : Nat → Option (List BxItem))
    (entries : List ArxivEntry) (articles : List PubmedArticle) (N : Nat) :
    (bio_search responses N).1.length ≤ N ∧
    (arxiv_search entries N).length ≤ entries.length ∧
    (pubmed_search articles N).length ≤ articles.length := by
  refine ⟨?_, List.length_filterMap_le _ _, List.length_filterMap_le _ _⟩
  unfold bio_search
  by_cases hN : 0 < N
  · rw [if_pos hN]
    rcases hE : bioFetchPage responses 3 0 with ⟨o, r⟩
    cases o with
    | none => simp
    | some coll =>
      simp only
      rw [List.length_take]
      exact Nat.min_le_left _ _
  · rw [if_neg hN]
    simp

/-- C2: the mirror-rotation adapter's `read_paper` leaves the existence of
`<dir>/<sanitized id>.pdf` exactly as it found it, whether extraction
succeeds or fails and whether the download succeeds or raises: a
freshly downloaded PDF is removed in the `finally` block, a pre-existing
cached PDF is kept, and a failed download creates nothing. -/
theorem hub_read_paper_preserves_pdf (st : HubState) (f : String → Bool)
    (fs : FS) (extractRes : Option String) (paper_id save_path : String) :
    (hub_read_paper st f fs extractRes paper_id save_path).2.1
        (pdfPath save_path paper_id) = fs (pdfPath save_path paper_id) := by
  unfold hub_read_paper hub_download_pdf
  cases hfs : fs (pdfPath save_path paper_id)
  · cases hemp : st.available_urls.isEmpty
    · cases htl : tryLoop f (urlsToTry st) 0 with
      | none => cases extractRes <;> simp [hfs, hemp, htl, setFile]
      | some i => cases extractRes <;> simp [hfs, hemp, htl, setFile]
    · cases extractRes <;> simp [hfs, hemp, setFile]
  · cases extractRes <;> simp [hfs]

/-- C3: if, in rotation order starting at the current index, the first `K`
mirrors fail and the `K+1`-th succeeds, `download_pdf` succeeds, stores as
the new index exactly the absolute offset of the succeeding mirror in the
candidate list, and a subsequent call tries that mirror first. -/
theorem hub_download_rotation (urls : List String) (idx K : Nat)
    (f : String → Bool) (fs : FS) (paper_id save_path : String)
    (hidx : idx < urls.length) (hK : K < urls.length)
    (hfail : ∀ j, j < K → f ((urlsToTry ⟨urls, idx⟩).getD j "") = false)
    (hsucc : f ((urlsToTry ⟨urls, idx⟩).getD K "") = true) :
    ∃ st2 fs2,
      hub_download_pdf ⟨urls, idx⟩ f fs paper_id save_path
          = some (pdfPath save_path paper_id, st2, fs2) ∧
      st2.url_index = (idx + K) % urls.length ∧
      urls.getD st2.url_index "" = (urlsToTry ⟨urls, idx⟩).getD K "" ∧
      (urlsToTry st2).getD 0 "" = (urlsToTry ⟨urls, idx⟩).getD K "" := by
  have hlenTry : (urlsToTry ⟨urls, idx⟩).length = urls.length := by
    unfold urlsToTry
    simp only [List.length_append, List.length_drop, List.length_take]
    omega
  have hloop : tryLoop f (urlsToTry ⟨urls, idx⟩) 0 = some (0 + K) :=
    tryLoop_first f _ K 0 (by omega) hfail hsucc
  have hne : urls.isEmpty = false := by
    cases urls with
    | nil => simp at hK
    | cons a t => rfl
  have hpos : 0 < urls.length := by
    cases urls with
    | nil => simp at hK
    | cons a t => simp
  have hidx2 : (idx + K) % urls.length < urls.length := Nat.mod_lt _ hpos
  have hrot1 := rot_getD urls "" idx K hidx hK
  refine ⟨⟨urls, (idx + K) % urls.length⟩,
    setFile fs (pdfPath save_path paper_id) true, ?_, rfl, ?_, ?_⟩
  · unfold hub_download_pdf
    rw [hloop]
    simp [hne]
  · exact hrot1.symm
  · have hrot2 := rot_getD urls "" ((idx + K) % urls.length) 0 hidx2 hpos
    calc (urlsToTry ⟨urls, (idx + K) % urls.length⟩).getD 0 ""
        = urls.getD (((idx + K) % urls.length + 0) % urls.length) "" := hrot2
      _ = urls.getD ((idx + K) % urls.length) "" := by
          rw [Nat.add_zero, Nat.mod_eq_of_lt hidx2]
      _ = (urlsToTry ⟨urls, idx⟩).getD K "" := hrot1.symm

/-- Witness for `hub_download_rotation`: three mirrors, current index 1, the
first candidate in rotation order fails and the second succeeds. -/
theorem hub_download_rotation_witness :
    ∃ st2 fs2,
      hub_download_pdf ⟨["a", "b", "c"], 1⟩ (fun s => s == "c") (fun _ => false) "x" "d"
          = some (pdfPath "d" "x", st2, fs2) ∧
      st2.url_index = (1 + 1) % (["a", "b", "c"] : List String).length ∧
      (["a", "b", "c"] : List String).getD st2.url_index ""
          = (urlsToTry ⟨["a", "b", "c"], 1⟩).getD 1 "" ∧
      (urlsToTry st2).getD 0 "" = (urlsToTry ⟨["a", "b", "c"], 1⟩).getD 1 "" :=
  hub_download_rotation ["a", "b", "c"] 1 1 (fun s => s == "c") (fun _ => false) "x" "d"
    (by decide) (by decide) (by decide) (by decide)

/-- A concrete, successfully parsing bioRxiv collection item. -/
def itemB : BxItem :=
  { doi := "10.1101/2024.0001", title := "T", authors := "A; B", abstract := "Abs"
    date := "2024-05-06", category := "cell_biology", version := none }

/-- A server that answers every request with a full page of 100 parseable
items. -/
def fullPages : Nat → Option (List BxItem) := fun _ => some (List.replicate 100 itemB)

/-- C4: with `maxResults = 150` and every page containing exactly 100
well-formed items, the search issues exactly ONE page request and returns 100
papers — the pagination loop never advances the cursor, because the `break`
after the retry loop unconditionally terminates the outer `while` (the
`else: continue` of the retry loop is dead code). This contradicts the claim
of at least two page requests accumulating 150 items. -/
theorem biorxiv_single_page_fetch :
    (bio_search fullPages 150).1.length = 100 ∧ (bio_search fullPages 150).2 = 1 := by
  constructor <;> decide

/-- The server behaviour of the C5 claim: three consecutive 429 responses,
then a 200. -/
def resp429x3then200 : Nat → ReqRes :=
  fun n => if n < 3 then ReqRes.resp 429 "" else ReqRes.resp 200 "ok"

/-- C5 counterexample: with `max_retries = 3`, three consecutive 429s exhaust
all attempts — the call returns the typed rate-limited value after only TWO
backoff sleeps (2 s and 4 s); the 200 would be the fourth response and is
never requested, so the claimed "parsed 200 result after three sleeps" is
false. -/
theorem request_api_three429_not_success :
    request_api resp429x3then200 = (ApiResult.rateLimited, [2, 4]) := by decide

/-- C5 (amended): TWO consecutive 429s followed by a 200 yield the successful
response after two backoff sleeps of doubling durations (2 s then 4 s); and
when all three attempts return 429 the call returns the typed rate-limited
value — with the same two sleeps — rather than raising. -/
theorem request_api_backoff (responses : Nat → ReqRes) (b0 b1 b2 body : String) :
    (responses 0 = ReqRes.resp 429 b0 → responses 1 = ReqRes.resp 429 b1 →
        responses 2 = ReqRes.resp 200 body →
        request_api responses = (ApiResult.success 200 body, [2, 4])) ∧
    (responses 0 = ReqRes.resp 429 b0 → responses 1 = ReqRes.resp 429 b1 →
        responses 2 = ReqRes.resp 429 b2 →
        request_api responses = (ApiResult.rateLimited, [2, 4])) := by
  constructor <;> intro h0 h1 h2 <;>
    simp [request_api, request_api_go, h0, h1, h2]

def respTwo429then200 : Nat → ReqRes :=
  fun n => if n = 0 then ReqRes.resp 429 "" else
    if n = 1 then ReqRes.resp 429 "" else ReqRes.resp 200 "ok"

def respAll429 : Nat → ReqRes := fun _ => ReqRes.resp 429 ""

/-- Witness for `request_api_backoff` at two concrete response sequences. -/
theorem request_api_backoff_witness :
    request_api respTwo429then200 = (ApiResult.success 200 "ok", [2, 4]) ∧
    request_api respAll429 = (ApiResult.rateLimited, [2, 4]) :=
  ⟨(request_api_backoff respTwo429then200 "" "" "" "ok").1 rfl rfl rfl,
   (request_api_backoff respAll429 "" "" "" "ok").2 rfl rfl rfl⟩

/-- C6: however the optional collection fields are supplied to the
constructor — including as `None` — after `__post_init__` the `authors`,
`categories`, `keywords` and `references` fields are never `None`: an absent
value becomes the empty sequence, a present value is kept. -/
theorem paper_fields_never_none (pid t : String) (authors : Option (List String))
    (abs doi : String) (pd : Option DateTime) (pu u src : String)
    (ud : Option DateTime) (cats keys : Option (List String)) (cit : Int)
    (refs : Option (List String)) (ex : Option (List (String × String))) :
    (mkPaper pid t authors abs doi pd pu u src ud cats keys cit refs ex).authors
        = some (authors.getD []) ∧
    (mkPaper pid t authors abs doi pd pu u src ud cats keys cit refs ex).categories
        = some (cats.getD []) ∧
    (mkPaper pid t authors abs doi pd pu u src ud cats keys cit refs ex).keywords
        = some (keys.getD []) ∧
    (mkPaper pid t authors abs doi pd pu u src ud cats keys cit refs ex).references
        = some (refs.getD []) := by
  refine ⟨?_, ?_, ?_, ?_⟩
  · cases authors <;> rfl
  · cases cats <;> rfl
  · cases keys <;> rfl
  · cases refs <;> rfl

/-- C7: URL extraction from a disclaimer text selects, among all URLs matched
by the three patterns, the first DOI-resolver link if any; otherwise the
first non-unpaywall link, rewritten from an arXiv abstract page to its PDF
page; otherwise the first link found, with the same rewrite; and the empty
string when the disclaimer contains no URL. The DOI tier applies no
rewrite. -/
theorem extract_url_priority (d : String) :
    extract_url_from_disclaimer d =
      match (allDisclaimerUrls d).find? (fun u => strHas u "doi.org") with
      | some u => u
      | none =>
        match (allDisclaimerUrls d).find? (fun u => !strHas u "unpaywall.org") with
        | some u => rewriteArxiv u
        | none =>
          match (allDisclaimerUrls d).head? with
          | some u => rewriteArxiv u
          | none => "" := by
  unfold extract_url_from_disclaimer
  rw [find_eq_filter_head (fun u => strHas u "doi.org") (allDisclaimerUrls d),
    find_eq_filter_head (fun u => !strHas u "unpaywall.org") (allDisclaimerUrls d)]
  cases hL : allDisclaimerUrls d with
  | nil => rfl
  | cons a t =>
    cases hF1 : (a :: t).filter (fun u => strHas u "doi.org") with
    | cons u1 t1 => simp [hF1]
    | nil =>
      cases hF2 : (a :: t).filter (fun u => !strHas u "unpaywall.org") with
      | cons u2 t2 => simp [hF1, hF2]
      | nil => simp [hF1, hF2]

/-- C8: serialization renders each of the four collection fields as a
`"; "`-joined string (the empty string for an absent or empty sequence), the
two dates as ISO-8601 strings or the empty string when absent, and `extra` as
its stringified dict (the empty string when absent or empty). -/
theorem to_dict_wire_shape (p : Paper) :
    (to_dict p).authors = String.intercalate "; " (p.authors.getD []) ∧
    (to_dict p).categories = String.intercalate "; " (p.categories.getD []) ∧
    (to_dict p).keywords = String.intercalate "; " (p.keywords.getD []) ∧
    (to_dict p).references = String.intercalate "; " (p.references.getD []) ∧
    (to_dict p).published_date
        = (match p.published_date with | some dt => isoformat dt | none => "") ∧
    (to_dict p).updated_date
        = (match p.updated_date with | some dt => isoformat dt | none => "") ∧
    (to_dict p).extra
        = (if (p.extra.getD []).isEmpty then "" else pyStrDict (p.extra.getD [])) := by
  refine ⟨joinSemi_eq p.authors, joinSemi_eq p.categories, joinSemi_eq p.keywords,
    joinSemi_eq p.references, rfl, rfl, ?_⟩
  cases hx : p.extra with
  | none => simp [to_dict, hx]
  | some m => cases m <;> simp [to_dict, hx, pyStrDict]

/-- Helper for C9: the scanning loop of `_extract_year` returns the value of
the first token satisfying the digit-and-range test. -/
theorem extract_year_go_eq_find (nowYear : Nat) (ws : List String) :
    extract_year_go nowYear ws =
      (ws.find? (fun w => pyIsDigit w && decide (1900 ≤ digitsToNat w.data)
          && decide (digitsToNat w.data ≤ nowYear))).map (fun w => digitsToNat w.data) := by
  induction ws with
  | nil => rfl
  | cons w rest ih =>
    cases h : (pyIsDigit w && decide (1900 ≤ digitsToNat w.data)
        && decide (digitsToNat w.data ≤ nowYear)) with
    | false => simp [extract_year_go, List.find?_cons, h, ih]
    | true => simp [extract_year_go, List.find?_cons, h]

/-- C9: the derived year is the value of the first whitespace-delimited token
that is all digits with value between 1900 and the current year (`none` when
no such token exists); any returned year is a four-digit value within that
range. -/
theorem gs_extract_year_spec (text : String) (nowYear : Nat) (h : nowYear ≤ 9999) :
    extract_year text nowYear =
      ((pySplit text).find? (fun w => pyIsDigit w && decide (1900 ≤ digitsToNat w.data)
          && decide (digitsToNat w.data ≤ nowYear))).map (fun w => digitsToNat w.data) ∧
    ∀ y, extract_year text nowYear = some y →
      1900 ≤ y ∧ y ≤ nowYear ∧ 1000 ≤ y ∧ y ≤ 9999 := by
  have hmain := extract_year_go_eq_find nowYear (pySplit text)
  refine ⟨hmain, ?_⟩
  intro y hy
  rw [show extract_year text nowYear
      = extract_year_go nowYear (pySplit text) from rfl, hmain] at hy
  rcases Option.map_eq_some'.mp hy with ⟨w, hw, hval⟩
  have hsat := List.find?_some hw
  simp only [Bool.and_eq_true, decide_eq_true_eq] at hsat
  obtain ⟨⟨_, h1900⟩, hle⟩ := hsat
  subst hval
  exact ⟨h1900, hle, by omega, by omega⟩

/-- Witness for `gs_extract_year_spec` on a concrete author/venue line. -/
theorem gs_extract_year_spec_witness :
    2026 ≤ 9999 ∧ extract_year " J Smith - Nature, 2021 " 2026 = some 2021 := by
  refine ⟨by decide, ?_⟩
  rw [(gs_extract_year_spec " J Smith - Nature, 2021 " 2026 (by decide)).1]
  decide

/-- C10: the windowed-pagination adapter's `download_pdf` with an empty paper
id raises `ValueError` immediately: no HTTP request is issued and the file
system is unchanged. -/
theorem bio_download_empty_id (responses : Nat → Option String)
    (save_path : String) (fs : FS) (paper_id : String) (h : paper_id = "") :
    bio_download_pdf responses paper_id save_path fs = (BioDl.valueError, fs, 0) := by
  subst h
  rfl

/-- Witness for `bio_download_empty_id` at a concrete server and directory. -/
theorem bio_download_empty_id_witness :
    ("" : String) = "" ∧
    bio_download_pdf (fun _ => none) "" "./downloads" (fun _ => false)
      = (BioDl.valueError, (fun _ => false), 0) :=
  ⟨rfl, bio_download_empty_id (fun _ => none) "./downloads" (fun _ => false) "" rfl⟩
